import Mathlib

/-!
Verification development for a WebGL2 stable-fluids simulation
(`src/gl.js`, `src/shaders.js`, `src/sim.js`, `src/utils.js`).

The GPU pipeline is shallowly embedded: a texture/render target becomes a
`Grid` (dimensions plus a total data function), a framebuffer object becomes
an `FBO` (a grid together with a numeric resource handle standing for the GL
texture object), and a ping-pong pair becomes a `DoubleFBO`.  A fragment
shader becomes a function from input grids to an output grid: the function is
evaluated once per output texel, exactly as the GPU evaluates the fragment
program once per output sample.  Half-float texel values are idealised as real
numbers; `CLAMP_TO_EDGE` sampling becomes index clamping, and `LINEAR`
filtering at fractional coordinates becomes bilinear interpolation.
-/

namespace FluidSim

/-- vec2 values (velocity texels, uv coordinates). -/
abbrev V2 : Type := ℝ × ℝ

/-- vec3 values (rgb colour texels; the constant alpha channel written by the
dye/bloom shaders is never read back and is omitted from the model). -/
abbrev V3 : Type := ℝ × ℝ × ℝ

/-- A 2D texture level: dimensions plus a total function giving the texel
value at integer coordinates `(i, j)`, `0 ≤ i < width`, `0 ≤ j < height`. -/
structure Grid (β : Type) where
  width : ℕ
  height : ℕ
  data : ℕ → ℕ → β

/-- Clamp an integer texel index into `[0, n-1]`, the effect of
`CLAMP_TO_EDGE` wrapping on out-of-range sample footprints (gl.js sets
`TEXTURE_WRAP_S/T` to `CLAMP_TO_EDGE` on every texture). -/
def clampIdx (n : ℕ) (i : ℤ) : ℕ :=
  (max 0 (min i ((n : ℤ) - 1))).toNat

/-- Clamped-edge texel fetch. -/
def Grid.fetch {β : Type} (g : Grid β) (i j : ℤ) : β :=
  g.data (clampIdx g.width i) (clampIdx g.height j)

/-- A framebuffer-attached texture as produced by `createFBO` in gl.js: the
`id` models the GL texture/framebuffer handle pair (fresh per allocation), and
`fmt` models the internal format code passed at allocation time. -/
structure FBO (β : Type) where
  id : ℕ
  fmt : ℕ
  grid : Grid β

/-- A ping-pong pair as produced by `createDoubleFBO` in gl.js. -/
structure DoubleFBO (β : Type) where
  read : FBO β
  write : FBO β

/-- `swap()` from `createDoubleFBO`: exchange the two references, never
touching texel data. -/
def DoubleFBO.swap {β : Type} (d : DoubleFBO β) : DoubleFBO β :=
  ⟨d.write, d.read⟩

/-- `createFBO` (gl.js): allocate a fresh handle (`ctr`) and a zero-filled
texture (`texImage2D` with a null pointer yields zeroed storage), returning
the FBO and the next free handle. -/
def createFBO (β : Type) [Zero β] (ctr w h fmt : ℕ) : FBO β × ℕ :=
  (⟨ctr, fmt, ⟨w, h, fun _ _ => 0⟩⟩, ctr + 1)

/-- `createDoubleFBO` (gl.js): two same-spec FBOs wrapped as a read/write
pair. -/
def createDoubleFBO (β : Type) [Zero β] (ctr w h fmt : ℕ) : DoubleFBO β × ℕ :=
  let f := createFBO β ctr w h fmt
  let s := createFBO β f.2 w h fmt
  (⟨f.1, s.1⟩, s.2)

/-- `resizeFBO` (gl.js): no-op when the dimensions already match, otherwise
reallocate the storage of the same texture handle (contents discarded). -/
def resizeFBO {β : Type} [Zero β] (f : FBO β) (w h : ℕ) : FBO β :=
  if f.grid.width = w ∧ f.grid.height = h then f
  else { f with grid := ⟨w, h, fun _ _ => 0⟩ }

/-- `blit(gl, d.write, …)` into the write half of a double FBO: the write
target keeps its handle and format, its contents are replaced by the pass
output `g`. -/
def blitD {β : Type} (d : DoubleFBO β) (g : Grid β) : DoubleFBO β :=
  ⟨d.read, { d.write with grid := g }⟩

/-- `ensureDimension` (sim.js): `Math.max(2, Math.floor(value))`. -/
def ensureDimension (q : ℚ) : ℕ :=
  max 2 (Int.toNat ⌊q⌋)

/-- The sequence of bloom level dimensions allocated by `_setupBloomBuffers`
(sim.js): starting from the already-halved base, allocate a level at the
current size, halve (with the minimum-2 clamp), and stop early once either
halved dimension hits the clamp value 2. -/
def bloomDims (w h : ℕ) : ℕ → List (ℕ × ℕ)
  | 0 => []
  | n + 1 =>
      (w, h) ::
        (if ensureDimension ((w : ℚ) / 2) = 2 ∨ ensureDimension ((h : ℚ) / 2) = 2 then []
         else bloomDims (ensureDimension ((w : ℚ) / 2)) (ensureDimension ((h : ℚ) / 2)) n)

noncomputable section

/-- The uv coordinate of the centre of output texel `(i, j)` on a `w × h`
target, as produced by the full-screen quad's interpolated `vUv`. -/
def uvCenter (w h : ℕ) (i j : ℕ) : V2 :=
  (((i : ℝ) + 1 / 2) / (w : ℝ), ((j : ℝ) + 1 / 2) / (h : ℝ))

/-- GLSL `clamp(x, 0.0, 1.0)`. -/
def clamp01 (x : ℝ) : ℝ :=
  max 0 (min x 1)

/-- `texture(tex, (u, v))` for a `LINEAR`-filtered, `CLAMP_TO_EDGE` texture:
bilinear interpolation of the four texels surrounding the sample point, with
the footprint clamped at the edges.  At an exact texel centre this reduces to
the texel value, and one whole-texel offsets from a centre land on the
neighbouring centre, so neighbour taps in the difference shaders read exact
texel values. -/
def Grid.sampleL {β : Type} [AddCommMonoid β] [Module ℝ β] (g : Grid β) (u v : ℝ) : β :=
  let x := u * (g.width : ℝ) - 1 / 2
  let y := v * (g.height : ℝ) - 1 / 2
  let i := ⌊x⌋
  let j := ⌊y⌋
  let fx := x - (i : ℝ)
  let fy := y - (j : ℝ)
  ((1 - fx) * (1 - fy)) • g.fetch i j + (fx * (1 - fy)) • g.fetch (i + 1) j
    + ((1 - fx) * fy) • g.fetch i (j + 1) + (fx * fy) • g.fetch (i + 1) (j + 1)

/-! ### Fragment shader passes (shaders.js)

Each pass definition takes its input textures and produces the grid written
to the bound render target.  Neighbour taps of the one-texel-offset shaders
are written as clamped texel fetches; as noted at `Grid.sampleL`, this is
exactly what `LINEAR` or `NEAREST` sampling at `vUv ± texelSize` produces on
a same-sized target. -/

/-- `clearShader`: damp the retained pressure, `pressure * uDecay`. -/
def clearOut (decay : ℝ) (p : Grid ℝ) : Grid ℝ :=
  ⟨p.width, p.height, fun i j => p.data i j * decay⟩

/-- `pressureShader`: one Jacobi iteration,
`(left + right + bottom + top - divergence) * 0.25` with clamped-edge
neighbour sampling of `uPressure` and a centre tap of `uDivergence`. -/
def pressureOut (p d : Grid ℝ) : Grid ℝ :=
  ⟨p.width, p.height, fun i j =>
    (p.fetch ((i : ℤ) - 1) (j : ℤ) + p.fetch ((i : ℤ) + 1) (j : ℤ)
        + p.fetch (i : ℤ) ((j : ℤ) - 1) + p.fetch (i : ℤ) ((j : ℤ) + 1)
        - d.fetch (i : ℤ) (j : ℤ)) * (1 / 4)⟩

/-- `curlShader`: z-component of the velocity curl,
`right.y - left.y - (top.x - bottom.x)`. -/
def curlOut (v : Grid V2) (w h : ℕ) : Grid ℝ :=
  ⟨w, h, fun i j =>
    (v.fetch ((i : ℤ) + 1) (j : ℤ)).2 - (v.fetch ((i : ℤ) - 1) (j : ℤ)).2
      - ((v.fetch (i : ℤ) ((j : ℤ) + 1)).1 - (v.fetch (i : ℤ) ((j : ℤ) - 1)).1)⟩

/-- `divergenceShader`: `0.5 * (right.x - left.x + top.y - bottom.y)`. -/
def divergenceOut (v : Grid V2) (w h : ℕ) : Grid ℝ :=
  ⟨w, h, fun i j =>
    (1 / 2) * ((v.fetch ((i : ℤ) + 1) (j : ℤ)).1 - (v.fetch ((i : ℤ) - 1) (j : ℤ)).1
      + (v.fetch (i : ℤ) ((j : ℤ) + 1)).2 - (v.fetch (i : ℤ) ((j : ℤ) - 1)).2)⟩

/-- `vorticityShader`: confinement force from the curl texture.  The shader
builds `gradient = (|curlT| - |curlB|, |curlR| - |curlL|)`, normalises it by
`length(gradient) + 1e-5`, rotates it via `(gradient.y, -gradient.x)`, scales
by the (signed) centre curl value and `uCurlStrength`, and adds `force *
uDeltaTime` to the centre velocity. -/
def vorticityOut (vel : Grid V2) (c : Grid ℝ) (strength dt : ℝ) (w h : ℕ) : Grid V2 :=
  ⟨w, h, fun i j =>
    let curlL := c.fetch ((i : ℤ) - 1) (j : ℤ)
    let curlR := c.fetch ((i : ℤ) + 1) (j : ℤ)
    let curlB := c.fetch (i : ℤ) ((j : ℤ) - 1)
    let curlT := c.fetch (i : ℤ) ((j : ℤ) + 1)
    let gx := |curlT| - |curlB|
    let gy := |curlR| - |curlL|
    let len := Real.sqrt (gx * gx + gy * gy)
    let nx := gx / (len + 1e-5)
    let ny := gy / (len + 1e-5)
    let curl := c.fetch (i : ℤ) (j : ℤ)
    let fx := ny * curl * strength
    let fy := -nx * curl * strength
    let v := vel.fetch (i : ℤ) (j : ℤ)
    (v.1 + fx * dt, v.2 + fy * dt)⟩

/-- `gradientSubtractShader`: subtract the central-difference pressure
gradient, `velocity - 0.5 * (right - left, top - bottom)`. -/
def gradientSubtractOut (p : Grid ℝ) (vel : Grid V2) (w h : ℕ) : Grid V2 :=
  ⟨w, h, fun i j =>
    let v := vel.fetch (i : ℤ) (j : ℤ)
    (v.1 - (p.fetch ((i : ℤ) + 1) (j : ℤ) - p.fetch ((i : ℤ) - 1) (j : ℤ)) * (1 / 2),
     v.2 - (p.fetch (i : ℤ) ((j : ℤ) + 1) - p.fetch (i : ℤ) ((j : ℤ) - 1)) * (1 / 2))⟩

/-- `advectionShader`: semi-Lagrangian backtrace.  Sample `uVelocity` at the
output uv, step backwards by `uTimeStep * velocity * uTexelSize`, clamp the
coordinate into `[0,1]²` componentwise, sample `uSource` there and scale by
`uDissipation`. -/
def advectionOut {β : Type} [AddCommMonoid β] [Module ℝ β]
    (vel : Grid V2) (src : Grid β) (texel : V2) (dissipation dt : ℝ) (w h : ℕ) : Grid β :=
  ⟨w, h, fun i j =>
    let uv := uvCenter w h i j
    let v := vel.sampleL uv.1 uv.2
    let cx := clamp01 (uv.1 - dt * v.1 * texel.1)
    let cy := clamp01 (uv.2 - dt * v.2 * texel.2)
    dissipation • src.sampleL cx cy⟩

/-- `splatShader`: add `uValue` with a Gaussian falloff
`exp(-dot(diff, diff) / uRadius)` around `uPoint`, where `diff.x` is scaled
by `uAspectRatio`. -/
def splatOut {β : Type} [AddCommMonoid β] [Module ℝ β]
    (target : Grid β) (point : V2) (radius : ℝ) (value : β) (aspect : ℝ) (w h : ℕ) : Grid β :=
  ⟨w, h, fun i j =>
    let uv := uvCenter w h i j
    let dx := (uv.1 - point.1) * aspect
    let dy := uv.2 - point.2
    let falloff := Real.exp (-(dx * dx + dy * dy) / radius)
    target.sampleL uv.1 uv.2 + falloff • value⟩

/-- `copyShader` through `blit` into an arbitrary target: resample the source
at the target's texel centres (this is how `copyTexture` downsamples when the
target is smaller). -/
def copyOut (src : Grid V3) (w h : ℕ) : Grid V3 :=
  ⟨w, h, fun i j =>
    let uv := uvCenter w h i j
    src.sampleL uv.1 uv.2⟩

/-- `bloomPrefilterShader`: `color * max(maxChannel - uThreshold, 0)`. -/
def bloomPrefilterOut (threshold : ℝ) (src : Grid V3) (w h : ℕ) : Grid V3 :=
  ⟨w, h, fun i j =>
    let uv := uvCenter w h i j
    let c := src.sampleL uv.1 uv.2
    let brightness := max (max c.1 c.2.1) c.2.2
    let weight := max (brightness - threshold) 0
    weight • c⟩

/-- `bloomBlurShader`: 5-tap (3-fetch) separable Gaussian blur with taps at
`±1.3333333` texels along `uDirection`. -/
def bloomBlurOut (src : Grid V3) (dir : V2) (texel : V2) : Grid V3 :=
  ⟨src.width, src.height, fun i j =>
    let uv := uvCenter src.width src.height i j
    let sx := dir.1 * texel.1
    let sy := dir.2 * texel.2
    (0.2941176 : ℝ) • src.sampleL uv.1 uv.2
      + (0.3529411 : ℝ) • src.sampleL (uv.1 + sx * 1.3333333) (uv.2 + sy * 1.3333333)
      + (0.3529411 : ℝ) • src.sampleL (uv.1 - sx * 1.3333333) (uv.2 - sy * 1.3333333)⟩

/-- `bloomCombineShader`: `uBase + uBloom`, both sampled at the output uv. -/
def bloomCombineOut (base bloom : Grid V3) (w h : ℕ) : Grid V3 :=
  ⟨w, h, fun i j =>
    let uv := uvCenter w h i j
    base.sampleL uv.1 uv.2 + bloom.sampleL uv.1 uv.2⟩

/-- `displayShader`: optional bloom add, Reinhard-style exposure tone map
`1 - exp(-color * uExposure)`, gamma correction `pow(c, 1/uGamma)`, written
with alpha 1. -/
def displayOut (dye bloom : Grid V3) (enableBloom : Bool)
    (intensity gamma exposure : ℝ) (w h : ℕ) : Grid (V3 × ℝ) :=
  ⟨w, h, fun i j =>
    let uv := uvCenter w h i j
    let base := dye.sampleL uv.1 uv.2
    let c := if enableBloom then base + intensity • bloom.sampleL uv.1 uv.2 else base
    ((Real.rpow (1 - Real.exp (-(c.1 * exposure))) (1 / gamma),
      Real.rpow (1 - Real.exp (-(c.2.1 * exposure))) (1 / gamma),
      Real.rpow (1 - Real.exp (-(c.2.2 * exposure))) (1 / gamma)), 1)⟩

end

/-! ### Simulation state and orchestration (sim.js) -/

/-- The runtime configuration read by the core every tick
(`DEFAULT_CONFIG` lists the fields; `texelDownsample` is kept as a rational
because it only feeds the `ensureDimension` floor computation, and the
iteration/level counts are kept as naturals). -/
structure Config where
  velocityDissipation : ℝ
  densityDissipation : ℝ
  pressureDecay : ℝ
  pressureIterations : ℕ
  curlStrength : ℝ
  splatRadius : ℝ
  splatForce : ℝ
  texelDownsample : ℚ
  paused : Bool
  cycleColors : Bool
  colorCycleSpeed : ℝ
  gamma : ℝ
  exposure : ℝ
  enableBloom : Bool
  bloomIntensity : ℝ
  bloomThreshold : ℝ
  bloomLevels : ℕ

/-- An rgb colour record as produced by `randomColor` (utils.js). -/
structure Color where
  r : ℝ
  g : ℝ
  b : ℝ

/-- A pointer-impulse record as consumed by `applyPointer` (the fields the
core reads; `previous` and `id` are only used by the UI layer). -/
structure Pointer where
  down : Bool
  moved : Bool
  position : V2
  delta : V2
  color : Color

/-- One bloom chain level: a `buffer` and a same-sized `temp` target. -/
structure BloomLevel where
  buffer : FBO V3
  temp : FBO V3

/-- `this.framebuffers` of `FluidSimulation`. -/
structure Framebuffers where
  velocity : DoubleFBO V2
  density : DoubleFBO V3
  pressure : DoubleFBO ℝ
  divergence : FBO ℝ
  curl : FBO ℝ
  bloom : List BloomLevel

/-- The mutable state of a `FluidSimulation` instance.  `ctr` is the next
free GL resource handle, modelling allocation freshness. -/
structure SimState where
  config : Config
  fbs : Framebuffers
  simSize : ℕ × ℕ
  canvasSize : ℕ × ℕ
  autoTimer : ℝ
  colorCycleTimer : ℝ
  lastPointerColor : Color
  ctr : ℕ

/-- Allocate bloom levels (a `buffer`/`temp` FBO pair each) for a dimension
list, handing out fresh handles. -/
def allocBloomLevels : ℕ → List (ℕ × ℕ) → List BloomLevel × ℕ
  | ctr, [] => ([], ctr)
  | ctr, (w, h) :: rest =>
      let buffer : FBO V3 := ⟨ctr, 0, ⟨w, h, fun _ _ => 0⟩⟩
      let temp : FBO V3 := ⟨ctr + 1, 0, ⟨w, h, fun _ _ => 0⟩⟩
      let t := allocBloomLevels (ctr + 2) rest
      (⟨buffer, temp⟩ :: t.1, t.2)

/-- `_setupBloomBuffers` (sim.js): delete the old chain and allocate a fresh
one whose dimensions follow `bloomDims`, starting from the halved base size
and requesting `max 1 bloomLevels` levels. -/
def setupBloomBuffers (ctr baseW baseH levels : ℕ) : List BloomLevel × ℕ :=
  allocBloomLevels ctr
    (bloomDims (ensureDimension ((baseW : ℚ) / 2)) (ensureDimension ((baseH : ℚ) / 2))
      (max 1 levels))

noncomputable section

/-- `splat` (sim.js): one velocity-splat pass and one dye-splat pass, each
followed by a swap; records the colour as `lastPointerColor`. -/
def splatF (s : SimState) (x y dx dy : ℝ) (color : Color) : SimState :=
  let aspect := ((s.simSize.1 : ℝ)) / (s.simSize.2 : ℝ)
  let vel := s.fbs.velocity
  let vImpulse : V2 := (dx * s.config.splatForce, dy * s.config.splatForce)
  let velOut := splatOut vel.read.grid (x, y) s.config.splatRadius vImpulse aspect
    vel.write.grid.width vel.write.grid.height
  let vel2 := (blitD vel velOut).swap
  let den := s.fbs.density
  let cValue : V3 := (color.r, color.g, color.b)
  let denOut := splatOut den.read.grid (x, y) s.config.splatRadius cValue aspect
    den.write.grid.width den.write.grid.height
  let den2 := (blitD den denOut).swap
  { s with fbs := { s.fbs with velocity := vel2, density := den2 },
           lastPointerColor := color }

/-- `applyPointer` (sim.js).  Returns the updated simulation state, the
updated pointer record, and whether a random colour was consumed.  The source
mutates the pointer record in place: it may overwrite `color` (when
`randomizeColor` is set) and clears `moved` after applying the splat.
`rcol` stands for the `randomColor()` draw. -/
def applyPointerF (s : SimState) (p : Pointer) (rcol : Color) (randomize : Bool) :
    SimState × Pointer × Bool :=
  if !p.moved || !p.down then (s, p, false)
  else if p.delta.1 = 0 ∧ p.delta.2 = 0 then (s, p, false)
  else
    let p1 := if randomize then { p with color := rcol } else p
    (splatF s p1.position.1 p1.position.2 p1.delta.1 p1.delta.2 p1.color,
     { p1 with moved := false }, randomize)

/-- The `pointers.forEach(...)` loop of `step`, threading the state and the
random-colour oracle `rng` (indexed by draws consumed so far) and collecting
the updated pointer records in order. -/
def applyPointers (rng : ℕ → Color) (randomize : Bool) :
    SimState → ℕ → List Pointer → SimState × List Pointer
  | s, _, [] => (s, [])
  | s, k, p :: rest =>
      let r := applyPointerF s p (rng k) randomize
      let t := applyPointers rng randomize r.1 (if r.2.2 then k + 1 else k) rest
      (t.1, r.2.1 :: t.2)

/-- `_advectVelocity`: advect `velocity.read` along itself
(`uVelocity = uSource = velocity.read`), then swap. -/
def advectVelocityStep (cfg : Config) (dt : ℝ) (fb : Framebuffers) : Framebuffers :=
  let vel := fb.velocity
  let texel : V2 := (1 / (vel.read.grid.width : ℝ), 1 / (vel.read.grid.height : ℝ))
  let out := advectionOut vel.read.grid vel.read.grid texel cfg.velocityDissipation dt
    vel.write.grid.width vel.write.grid.height
  { fb with velocity := (blitD vel out).swap }

/-- `_advectDye`: advect `density.read` along the (projected) velocity, then
swap the density pair. -/
def advectDyeStep (cfg : Config) (dt : ℝ) (fb : Framebuffers) : Framebuffers :=
  let den := fb.density
  let texel : V2 := (1 / (den.read.grid.width : ℝ), 1 / (den.read.grid.height : ℝ))
  let out := advectionOut fb.velocity.read.grid den.read.grid texel cfg.densityDissipation dt
    den.write.grid.width den.write.grid.height
  { fb with density := (blitD den out).swap }

/-- `_applyVorticity`: recompute the curl texture from `velocity.read`, run
the confinement pass into `velocity.write`, swap. -/
def applyVorticityStep (cfg : Config) (dt : ℝ) (fb : Framebuffers) : Framebuffers :=
  let cg := curlOut fb.velocity.read.grid fb.curl.grid.width fb.curl.grid.height
  let fb1 := { fb with curl := { fb.curl with grid := cg } }
  let out := vorticityOut fb1.velocity.read.grid fb1.curl.grid cfg.curlStrength dt
    fb1.velocity.write.grid.width fb1.velocity.write.grid.height
  { fb1 with velocity := (blitD fb1.velocity out).swap }

/-- `_computeDivergence`: recompute the single-buffered divergence grid from
`velocity.read` (no swap). -/
def computeDivergenceStep (fb : Framebuffers) : Framebuffers :=
  { fb with divergence := { fb.divergence with
      grid := divergenceOut fb.velocity.read.grid fb.divergence.grid.width
        fb.divergence.grid.height } }

/-- The Jacobi relaxation loop of `_solvePressure`: each iteration blits the
`pressureShader` output (reading `pressure.read` and the divergence grid)
into `pressure.write` and swaps. -/
def solvePressureLoop (d : Grid ℝ) : ℕ → DoubleFBO ℝ → DoubleFBO ℝ
  | 0, p => p
  | n + 1, p => solvePressureLoop d n ((blitD p (pressureOut p.read.grid d)).swap)

/-- `_solvePressure` (sim.js): first blit the decayed `pressure.read`
(`clearShader` with `uDecay = pressureDecay`) into `pressure.write` and swap,
then run exactly `pressureIterations` Jacobi iterations. -/
def solvePressure (cfg : Config) (d : Grid ℝ) (p : DoubleFBO ℝ) : DoubleFBO ℝ :=
  solvePressureLoop d cfg.pressureIterations
    ((blitD p (clearOut cfg.pressureDecay p.read.grid)).swap)

/-- `_solvePressure` lifted to the framebuffer record. -/
def solvePressureStep (cfg : Config) (fb : Framebuffers) : Framebuffers :=
  { fb with pressure := solvePressure cfg fb.divergence.grid fb.pressure }

/-- `_subtractPressureGradient`: projection pass into `velocity.write`,
swap. -/
def subtractGradientStep (fb : Framebuffers) : Framebuffers :=
  let out := gradientSubtractOut fb.pressure.read.grid fb.velocity.read.grid
    fb.velocity.write.grid.width fb.velocity.write.grid.height
  { fb with velocity := (blitD fb.velocity out).swap }

/-- The pass sequence of one tick after the pointer loop, in source order. -/
def stepPipeline (s : SimState) (dt : ℝ) : SimState :=
  let fb := advectVelocityStep s.config dt s.fbs
  let fb := applyVorticityStep s.config dt fb
  let fb := computeDivergenceStep fb
  let fb := solvePressureStep s.config fb
  let fb := subtractGradientStep fb
  let fb := advectDyeStep s.config dt fb
  { s with fbs := fb }

/-- `step` (sim.js).  When `paused` is set the method returns immediately:
no field, timer, or pointer record is touched and the impulses are simply
dropped.  Otherwise it advances the timers, decides whether this tick
randomises pointer colours, runs the pointer loop, caps `dt` at 0.016 and
runs the pass pipeline.  Returns the new state and the (mutated) pointer
records. -/
def step (s : SimState) (dt : ℝ) (ps : List Pointer) (rng : ℕ → Color) :
    SimState × List Pointer :=
  if s.config.paused then (s, ps)
  else
    let s1 := { s with autoTimer := s.autoTimer + dt,
                       colorCycleTimer := s.colorCycleTimer + dt }
    let cyc : Bool := s1.config.cycleColors
      && decide (s1.config.colorCycleSpeed < s1.colorCycleTimer)
    let s2 := if cyc then { s1 with colorCycleTimer := 0 } else s1
    let r := applyPointers rng cyc s2 0 ps
    (stepPipeline r.1 (min dt 0.016), r.2)

/-- `resize` (sim.js): record the canvas size, recompute the simulation
dimensions through `ensureDimension (dim / texelDownsample)`, and return
unchanged (apart from the recorded canvas size) when they match the current
ones; otherwise resize every field in place and rebuild the bloom chain with
fresh handles (the source passes `width` for both bloom base dimensions). -/
def resizeF (s : SimState) (w h : ℕ) : SimState :=
  let sw := ensureDimension ((w : ℚ) / s.config.texelDownsample)
  let sh := ensureDimension ((h : ℚ) / s.config.texelDownsample)
  let s1 := { s with canvasSize := (w, h) }
  if s1.simSize = (sw, sh) then s1
  else
    let alloc := setupBloomBuffers s1.ctr w w s1.config.bloomLevels
    { s1 with
      simSize := (sw, sh),
      fbs := { velocity := ⟨resizeFBO s1.fbs.velocity.read sw sh,
                            resizeFBO s1.fbs.velocity.write sw sh⟩,
               density := ⟨resizeFBO s1.fbs.density.read sw sh,
                           resizeFBO s1.fbs.density.write sw sh⟩,
               pressure := ⟨resizeFBO s1.fbs.pressure.read sw sh,
                            resizeFBO s1.fbs.pressure.write sw sh⟩,
               divergence := resizeFBO s1.fbs.divergence sw sh,
               curl := resizeFBO s1.fbs.curl sw sh,
               bloom := alloc.1 },
      ctr := alloc.2 }

/-- The downsample-copy loop of `_runBloom`: copy the running `previous`
buffer into each subsequent (smaller) level's buffer, collecting the buffer
contents in chain order. -/
def bloomDownChain (prev : Grid V3) : List BloomLevel → List (Grid V3)
  | [] => []
  | lvl :: rest =>
      let g := copyOut prev lvl.buffer.grid.width lvl.buffer.grid.height
      g :: bloomDownChain g rest

/-- Horizontal-then-vertical blur of one bloom buffer, as run per level by
`_runBloom` (`uTexelSize` is the level's own texel size). -/
def bloomBlurBoth (g : Grid V3) : Grid V3 :=
  let texel : V2 := (1 / (g.width : ℝ), 1 / (g.height : ℝ))
  bloomBlurOut (bloomBlurOut g (1, 0) texel) (0, 1) texel

/-- The bottom-up combine loop of `_runBloom`: starting from the smallest
level's buffer, blend `level.buffer + current` into `level.temp`, copy it
back into `level.buffer` (a same-size copy), and continue upward; the head of
the chain ends up holding the composited result. -/
def bloomCombineUp : List (Grid V3) → Grid V3
  | [] => ⟨0, 0, fun _ _ => 0⟩
  | [g] => g
  | g :: g2 :: rest =>
      let current := bloomCombineUp (g2 :: rest)
      let temp := bloomCombineOut g current g.width g.height
      copyOut temp g.width g.height

/-- `_runBloom` (sim.js), expressed functionally on the buffer contents:
prefilter the dye into level 0, downsample-copy down the chain, blur every
level, combine bottom-up, and return level 0's buffer (the dye texture is
returned verbatim when the chain is empty). -/
def runBloomF (cfg : Config) (dye : Grid V3) : List BloomLevel → Grid V3
  | [] => dye
  | first :: rest =>
      let g0 := bloomPrefilterOut cfg.bloomThreshold dye
        first.buffer.grid.width first.buffer.grid.height
      let buffers := g0 :: bloomDownChain g0 rest
      bloomCombineUp (buffers.map bloomBlurBoth)

/-- `render` (sim.js): run the bloom chain when enabled and non-empty, then
the display pass to the default framebuffer at the output surface size
(`uBloom` falls back to the dye texture itself when no bloom texture was
produced). -/
def renderF (s : SimState) (w h : ℕ) : Grid (V3 × ℝ) :=
  let bloomTex : Option (Grid V3) :=
    if s.config.enableBloom && !s.fbs.bloom.isEmpty then
      some (runBloomF s.config s.fbs.density.read.grid s.fbs.bloom)
    else none
  displayOut s.fbs.density.read.grid (bloomTex.getD s.fbs.density.read.grid)
    s.config.enableBloom s.config.bloomIntensity s.config.gamma s.config.exposure w h

/-! ### Statement-side definitions

Definitions in this block are written from the specification's wording (not
from the source) and exist only to be compared against the embedded code
above. -/

/-- The vorticity confinement output as the spec sentence literally states
it: the normalised, rotated curl gradient scaled by the MAGNITUDE of the
local curl value (`|curl|`) and `curlStrength × dt`, added to the velocity.
Component sourcing of the gradient and the rotation direction follow the
shader so that the only difference under test is `|curl|` versus the signed
`curl`. -/
def vorticitySpecMagnitude (vel : Grid V2) (c : Grid ℝ) (strength dt : ℝ) (w h : ℕ) :
    Grid V2 :=
  ⟨w, h, fun i j =>
    let g : V2 := (|c.fetch (i : ℤ) ((j : ℤ) + 1)| - |c.fetch (i : ℤ) ((j : ℤ) - 1)|,
                   |c.fetch ((i : ℤ) + 1) (j : ℤ)| - |c.fetch ((i : ℤ) - 1) (j : ℤ)|)
    let n : V2 := (Real.sqrt (g.1 * g.1 + g.2 * g.2) + 1e-5)⁻¹ • g
    let rot : V2 := (n.2, -n.1)
    let force : V2 := (|c.fetch (i : ℤ) (j : ℤ)| * strength) • rot
    vel.fetch (i : ℤ) (j : ℤ) + dt • force⟩

/-- The vorticity confinement output with the spec's structure but the
code's signed scaling: the normalised, rotated curl gradient scaled by the
signed local curl value and `curlStrength × dt`, added to the velocity. -/
def vorticitySpecSigned (vel : Grid V2) (c : Grid ℝ) (strength dt : ℝ) (w h : ℕ) :
    Grid V2 :=
  ⟨w, h, fun i j =>
    let g : V2 := (|c.fetch (i : ℤ) ((j : ℤ) + 1)| - |c.fetch (i : ℤ) ((j : ℤ) - 1)|,
                   |c.fetch ((i : ℤ) + 1) (j : ℤ)| - |c.fetch ((i : ℤ) - 1) (j : ℤ)|)
    let n : V2 := (Real.sqrt (g.1 * g.1 + g.2 * g.2) + 1e-5)⁻¹ • g
    let rot : V2 := (n.2, -n.1)
    let force : V2 := (c.fetch (i : ℤ) (j : ℤ) * strength) • rot
    vel.fetch (i : ℤ) (j : ℤ) + dt • force⟩

/-- One presentation-pass pixel as the spec states it:
`pow(1 - exp(-(dye + b) * exposure), 1/gamma)` per channel, alpha 1. -/
def displaySpecPixel (dye b : V3) (exposure gamma : ℝ) : V3 × ℝ :=
  ((Real.rpow (1 - Real.exp (-((dye.1 + b.1) * exposure))) (1 / gamma),
    Real.rpow (1 - Real.exp (-((dye.2.1 + b.2.1) * exposure))) (1 / gamma),
    Real.rpow (1 - Real.exp (-((dye.2.2 + b.2.2) * exposure))) (1 / gamma)), 1)

/-- The view of a pointer record that `applyPointer` never writes to:
position, delta and the down flag. -/
def pointerView (p : Pointer) : V2 × V2 × Bool :=
  (p.position, p.delta, p.down)

/-! ### Concrete fixtures for witnesses and counterexamples -/

def zeroGrid2 : Grid V2 := ⟨2, 2, fun _ _ => (0, 0)⟩

def zeroGrid3 : Grid V3 := ⟨2, 2, fun _ _ => (0, 0, 0)⟩

def zeroGridR : Grid ℝ := ⟨2, 2, fun _ _ => 0⟩

def testConfig : Config :=
  { velocityDissipation := 0.995, densityDissipation := 0.98, pressureDecay := 0.915,
    pressureIterations := 0, curlStrength := 11, splatRadius := 0.002,
    splatForce := 13800, texelDownsample := 3, paused := false, cycleColors := false,
    colorCycleSpeed := 0.5, gamma := 2.2, exposure := 0.18, enableBloom := true,
    bloomIntensity := 0.2, bloomThreshold := 0.6, bloomLevels := 1 }

def testState : SimState :=
  { config := testConfig,
    fbs := { velocity := ⟨⟨0, 0, zeroGrid2⟩, ⟨1, 0, zeroGrid2⟩⟩,
             density := ⟨⟨2, 0, zeroGrid3⟩, ⟨3, 0, zeroGrid3⟩⟩,
             pressure := ⟨⟨4, 0, zeroGridR⟩, ⟨5, 0, zeroGridR⟩⟩,
             divergence := ⟨6, 0, zeroGridR⟩,
             curl := ⟨7, 0, zeroGridR⟩,
             bloom := [⟨⟨8, 0, zeroGrid3⟩, ⟨9, 0, zeroGrid3⟩⟩] },
    simSize := (2, 2), canvasSize := (6, 6), autoTimer := 0, colorCycleTimer := 0,
    lastPointerColor := ⟨0, 0, 0⟩, ctr := 10 }

def pausedState : SimState :=
  { testState with config := { testConfig with paused := true } }

def cexPointer : Pointer :=
  { down := true, moved := true, position := (1 / 2, 1 / 2), delta := (1, 0),
    color := ⟨1, 0, 0⟩ }

def zeroDeltaPointer : Pointer :=
  { cexPointer with delta := (0, 0) }

/-- A concrete curl texture whose centre curl is negative while the
neighbouring |curl| gradient is the diagonal `(1, 1)`. -/
def cexCurl : Grid ℝ :=
  ⟨3, 3, fun i j =>
    if i = 2 ∧ j = 1 then 1
    else if i = 1 ∧ j = 2 then 1
    else if i = 1 ∧ j = 1 then -1
    else 0⟩

def cexVel : Grid V2 := ⟨3, 3, fun _ _ => (0, 0)⟩

end

lemma ensureDimension_natCast_div_two (w : ℕ) :
    ensureDimension ((w : ℚ) / 2) = max 2 (w / 2) := by
  unfold ensureDimension
  have h1 : ⌊((w : ℚ) / 2)⌋.toNat = ⌊((w : ℚ) / 2)⌋₊ := Int.floor_toNat _
  have h2 : ((2 : ℕ) : ℚ) = (2 : ℚ) := by norm_num
  have h3 : ⌊((w : ℚ) / ((2 : ℕ) : ℚ))⌋₊ = ⌊(w : ℚ)⌋₊ / 2 := Nat.floor_div_nat (w : ℚ) 2
  rw [h1, ← h2, h3, Nat.floor_natCast]

lemma ensureDimension_half_ne_two {w : ℕ} (h : ensureDimension ((w : ℚ) / 2) ≠ 2) :
    6 ≤ w := by
  rw [ensureDimension_natCast_div_two] at h
  by_contra hlt
  push_neg at hlt
  interval_cases w <;> simp_all

lemma solvePressureLoop_read (d : Grid ℝ) :
    ∀ (n : ℕ) (p : DoubleFBO ℝ),
      (solvePressureLoop d n p).read.grid
        = (fun g => pressureOut g d)^[n] p.read.grid := by
  intro n
  induction n with
  | zero => intro p; rfl
  | succ k ih =>
      intro p
      rw [solvePressureLoop, ih, Function.iterate_succ_apply]
      rfl

/-- C1: each tick's pressure solve first blits the decayed `pressure.read`
into `pressure.write` and swaps, then runs exactly `pressureIterations`
Jacobi iterations with a swap after each, so the final `pressure.read` is
the `pressureIterations`-fold Jacobi iterate of the decayed prior pressure;
with `pressureIterations = 0` it is exactly the decayed prior pressure; and
each Jacobi iteration computes
`(left + right + bottom + top - divergence) * 0.25` with clamped-edge
neighbour sampling. -/
theorem pressure_solve_spec (cfg : Config) (d : Grid ℝ) (p : DoubleFBO ℝ) :
    (solvePressure cfg d p).read.grid
        = (fun g => pressureOut g d)^[cfg.pressureIterations]
            (clearOut cfg.pressureDecay p.read.grid)
      ∧ (cfg.pressureIterations = 0 →
            (solvePressure cfg d p).read.grid = clearOut cfg.pressureDecay p.read.grid)
      ∧ ∀ (q : Grid ℝ) (i j : ℕ),
          (pressureOut q d).data i j
            = (q.fetch ((i : ℤ) - 1) (j : ℤ) + q.fetch ((i : ℤ) + 1) (j : ℤ)
                + q.fetch (i : ℤ) ((j : ℤ) - 1) + q.fetch (i : ℤ) ((j : ℤ) + 1)
                - d.fetch (i : ℤ) (j : ℤ)) * (1 / 4) := by
  refine ⟨?_, ?_, fun q i j => rfl⟩
  · unfold solvePressure
    rw [solvePressureLoop_read]
    rfl
  · intro h0
    unfold solvePressure
    rw [h0]
    rfl

theorem pressure_solve_spec_witness :
    testConfig.pressureIterations = 0
      ∧ (solvePressure testConfig testState.fbs.divergence.grid testState.fbs.pressure).read.grid
          = clearOut testConfig.pressureDecay testState.fbs.pressure.read.grid :=
  ⟨rfl,
   (pressure_solve_spec testConfig testState.fbs.divergence.grid testState.fbs.pressure).2.1 rfl⟩

/-- C2: each output sample of the velocity self-advection pass is the source
velocity field (`uSource = uVelocity = velocity.read`) sampled at the
backtraced coordinate `uv - dt * velocity(uv) * texelSize`, clamped
componentwise to `[0,1]`, and scaled by `velocityDissipation`; the velocity
pair is swapped afterwards (the old read half becomes the write half). -/
theorem advection_velocity_spec (cfg : Config) (dt : ℝ) (fb : Framebuffers) (i j : ℕ) :
    ((advectVelocityStep cfg dt fb).velocity.read.grid.data i j
        = (let src := fb.velocity.read.grid
           let uv := uvCenter fb.velocity.write.grid.width fb.velocity.write.grid.height i j
           let v := src.sampleL uv.1 uv.2
           cfg.velocityDissipation •
             src.sampleL (clamp01 (uv.1 - dt * v.1 * (1 / (src.width : ℝ))))
               (clamp01 (uv.2 - dt * v.2 * (1 / (src.height : ℝ))))))
      ∧ (advectVelocityStep cfg dt fb).velocity.write = fb.velocity.read :=
  ⟨rfl, rfl⟩

/-- C3: a paused `step` returns before touching anything — every simulation
field (indeed the whole state, timers included) is unchanged, and the
supplied impulse records are returned untouched and are stored nowhere, so
they are dropped rather than queued. -/
theorem paused_step_noop (s : SimState) (dt : ℝ) (ps : List Pointer) (rng : ℕ → Color)
    (h : s.config.paused = true) :
    step s dt ps rng = (s, ps) := by
  unfold step
  simp [h]

theorem paused_step_noop_witness :
    pausedState.config.paused = true
      ∧ step pausedState 1 [cexPointer] (fun _ => ⟨0, 0, 0⟩) = (pausedState, [cexPointer]) :=
  ⟨rfl, paused_step_noop pausedState 1 [cexPointer] (fun _ => ⟨0, 0, 0⟩) rfl⟩

/-- C5: an impulse whose delta is exactly `(0, 0)` takes the early return in
`applyPointer` before any splat pass, so neither the velocity field nor the
dye field changes. -/
theorem zero_delta_splat_noop (s : SimState) (p : Pointer) (c : Color) (b : Bool)
    (h : p.delta = ((0 : ℝ), (0 : ℝ))) :
    (applyPointerF s p c b).1.fbs.velocity = s.fbs.velocity
      ∧ (applyPointerF s p c b).1.fbs.density = s.fbs.density := by
  have hd : p.delta.1 = 0 ∧ p.delta.2 = 0 := by rw [h]; exact ⟨rfl, rfl⟩
  unfold applyPointerF
  split
  · exact ⟨rfl, rfl⟩
  · exact ⟨rfl, rfl⟩

theorem zero_delta_splat_noop_witness :
    zeroDeltaPointer.delta = ((0 : ℝ), (0 : ℝ))
      ∧ (applyPointerF testState zeroDeltaPointer ⟨0, 0, 0⟩ false).1.fbs.velocity
          = testState.fbs.velocity
      ∧ (applyPointerF testState zeroDeltaPointer ⟨0, 0, 0⟩ false).1.fbs.density
          = testState.fbs.density :=
  ⟨rfl,
   (zero_delta_splat_noop testState zeroDeltaPointer ⟨0, 0, 0⟩ false rfl).1,
   (zero_delta_splat_noop testState zeroDeltaPointer ⟨0, 0, 0⟩ false rfl).2⟩

lemma applyPointerF_view (s : SimState) (p : Pointer) (c : Color) (b : Bool) :
    pointerView (applyPointerF s p c b).2.1 = pointerView p := by
  unfold applyPointerF
  split
  · rfl
  · split
    · rfl
    · cases b <;> rfl

lemma applyPointers_view (rng : ℕ → Color) (b : Bool) :
    ∀ (ps : List Pointer) (s : SimState) (k : ℕ),
      ((applyPointers rng b s k ps).2).map pointerView = ps.map pointerView := by
  intro ps
  induction ps with
  | nil => intro s k; rfl
  | cons p rest ih =>
      intro s k
      simp only [applyPointers, List.map_cons]
      rw [applyPointerF_view, ih]

/-- C4 amended: the core reads but never writes the `position`, `delta` and
`down` fields of an impulse record; it does mutate the records handed to
`step`, clearing the `moved` flag after applying a splat and overwriting
`color` when the automatic colour cycle triggers. -/
theorem step_preserves_pointer_core (s : SimState) (dt : ℝ) (ps : List Pointer)
    (rng : ℕ → Color) :
    ((step s dt ps rng).2).map pointerView = ps.map pointerView := by
  unfold step
  split
  · rfl
  · exact applyPointers_view rng _ ps _ 0

lemma step_clears_moved :
    (step testState 1 [cexPointer] (fun _ => ⟨0, 0, 0⟩)).2
      = [{ cexPointer with moved := false }] := by
  simp [step, applyPointers, applyPointerF, testState, testConfig, cexPointer]

/-- C4 counterexample: `applyPointer` writes to the impulse record — with a
moving, pressed pointer of nonzero delta, the record returned by `step` has
its `moved` flag cleared, so it differs from the record that was passed in
(the source executes `pointer.moved = false` after the splat). -/
theorem step_mutates_pointer_counterexample :
    (step testState 1 [cexPointer] (fun _ => ⟨0, 0, 0⟩)).2 ≠ [cexPointer] := by
  rw [step_clears_moved]
  simp [cexPointer]

/-- C10: `swap()` only exchanges the read/write references (the two FBOs are
preserved intact, no data copied), swapping twice restores the original
assignment, and for a pair built by `createDoubleFBO` the read and write
halves reference two distinct resources (distinct handles) of identical
dimensions and format after any number of swaps. -/
theorem double_fbo_swap_spec (β : Type) [Zero β] (ctr w h fmt : ℕ) :
    (∀ d : DoubleFBO β, d.swap = ⟨d.write, d.read⟩)
      ∧ (∀ d : DoubleFBO β, d.swap.swap = d)
      ∧ (∀ n : ℕ,
          ((DoubleFBO.swap)^[n] (createDoubleFBO β ctr w h fmt).1).read.id
              ≠ ((DoubleFBO.swap)^[n] (createDoubleFBO β ctr w h fmt).1).write.id
            ∧ ((DoubleFBO.swap)^[n] (createDoubleFBO β ctr w h fmt).1).read.grid.width
                = ((DoubleFBO.swap)^[n] (createDoubleFBO β ctr w h fmt).1).write.grid.width
            ∧ ((DoubleFBO.swap)^[n] (createDoubleFBO β ctr w h fmt).1).read.grid.height
                = ((DoubleFBO.swap)^[n] (createDoubleFBO β ctr w h fmt).1).write.grid.height
            ∧ ((DoubleFBO.swap)^[n] (createDoubleFBO β ctr w h fmt).1).read.fmt
                = ((DoubleFBO.swap)^[n] (createDoubleFBO β ctr w h fmt).1).write.fmt) := by
  refine ⟨fun d => rfl, fun d => by cases d; rfl, fun n => ?_⟩
  have key : ∀ m : ℕ, (DoubleFBO.swap)^[m] (createDoubleFBO β ctr w h fmt).1
        = (createDoubleFBO β ctr w h fmt).1
      ∨ (DoubleFBO.swap)^[m] (createDoubleFBO β ctr w h fmt).1
        = ((createDoubleFBO β ctr w h fmt).1).swap := by
    intro m
    induction m with
    | zero => left; rfl
    | succ k ihm =>
        rw [Function.iterate_succ_apply']
        rcases ihm with hh | hh
        · right; rw [hh]
        · left
          rw [hh]
          rfl
  rcases key n with hh | hh <;> rw [hh]
  · exact ⟨Nat.ne_of_lt (Nat.lt_succ_self ctr), rfl, rfl, rfl⟩
  · exact ⟨(Nat.ne_of_lt (Nat.lt_succ_self ctr)).symm, rfl, rfl, rfl⟩

theorem double_fbo_swap_spec_witness :
    ((DoubleFBO.swap)^[1] (createDoubleFBO ℝ 0 2 2 0).1).read.id
      ≠ ((DoubleFBO.swap)^[1] (createDoubleFBO ℝ 0 2 2 0).1).write.id :=
  ((double_fbo_swap_spec ℝ 0 2 2 0).2.2 1).1

lemma resizeF_config (s : SimState) (w h : ℕ) : (resizeF s w h).config = s.config := by
  unfold resizeF
  dsimp only
  split <;> rfl

lemma resizeF_canvas (s : SimState) (w h : ℕ) : (resizeF s w h).canvasSize = (w, h) := by
  unfold resizeF
  dsimp only
  split <;> rfl

lemma resizeF_simSize (s : SimState) (w h : ℕ) :
    (resizeF s w h).simSize
      = (ensureDimension ((w : ℚ) / s.config.texelDownsample),
         ensureDimension ((h : ℚ) / s.config.texelDownsample)) := by
  unfold resizeF
  dsimp only
  split
  · rename_i hg
    exact hg
  · rfl

lemma resizeF_noop (s : SimState) (w h : ℕ)
    (hs : s.simSize
      = (ensureDimension ((w : ℚ) / s.config.texelDownsample),
         ensureDimension ((h : ℚ) / s.config.texelDownsample))) :
    resizeF s w h = { s with canvasSize := (w, h) } := by
  unfold resizeF
  dsimp only
  split
  · rfl
  · rename_i hne
    exact absurd hs hne

lemma bloomDims_zero_eval (w h : ℕ) : bloomDims w h 0 = [] := rfl

lemma bloomDims_succ_eval (w h n : ℕ) :
    bloomDims w h (n + 1)
      = (w, h) ::
          (if max 2 (w / 2) = 2 ∨ max 2 (h / 2) = 2 then []
           else bloomDims (max 2 (w / 2)) (max 2 (h / 2)) n) := by
  rw [bloomDims, ensureDimension_natCast_div_two, ensureDimension_natCast_div_two]

lemma bloomDims_length_le (n : ℕ) : ∀ w h : ℕ, (bloomDims w h n).length ≤ n := by
  induction n with
  | zero => intro w h; simp [bloomDims]
  | succ k ih =>
      intro w h
      rw [bloomDims]
      split
      · simp
      · simpa using Nat.succ_le_succ (ih _ _)

lemma bloomDims_inner_ge_four (n : ℕ) :
    ∀ w h i : ℕ, i + 1 < (bloomDims w h n).length →
      4 ≤ ((bloomDims w h n).getD i (0, 0)).1 ∧ 4 ≤ ((bloomDims w h n).getD i (0, 0)).2 := by
  induction n with
  | zero => intro w h i hi; simp [bloomDims] at hi
  | succ k ih =>
      intro w h i hi
      rw [bloomDims] at hi ⊢
      by_cases hbr : ensureDimension ((w : ℚ) / 2) = 2 ∨ ensureDimension ((h : ℚ) / 2) = 2
      · rw [if_pos hbr] at hi
        simp at hi
      · rw [if_neg hbr] at hi ⊢
        push_neg at hbr
        cases i with
        | zero =>
            have hw := ensureDimension_half_ne_two hbr.1
            have hh := ensureDimension_half_ne_two hbr.2
            simp only [List.getD_cons_zero]
            exact ⟨by omega, by omega⟩
        | succ m =>
            simp only [List.length_cons, Nat.add_lt_add_iff_right] at hi
            simp only [List.getD_cons_succ]
            exact ih _ _ m hi

/-- C7: `resize` records the output size and recomputes the simulation
dimensions as `max(2, floor(dim / texelDownsample))` per axis; when the
computed simulation dimensions equal the current ones it returns without
touching any field or resource (only the recorded canvas size is written);
consequently calling `resize` twice with the same arguments leaves the state
of the second call identical to the first — no reallocation, all resource
handles unchanged. -/
theorem resize_spec (s : SimState) (w h : ℕ) :
    ((resizeF s w h).simSize
        = (ensureDimension ((w : ℚ) / s.config.texelDownsample),
           ensureDimension ((h : ℚ) / s.config.texelDownsample)))
      ∧ (s.simSize
            = (ensureDimension ((w : ℚ) / s.config.texelDownsample),
               ensureDimension ((h : ℚ) / s.config.texelDownsample)) →
          resizeF s w h = { s with canvasSize := (w, h) })
      ∧ resizeF (resizeF s w h) w h = resizeF s w h := by
  refine ⟨resizeF_simSize s w h, resizeF_noop s w h, ?_⟩
  have h1 : (resizeF s w h).simSize
      = (ensureDimension ((w : ℚ) / (resizeF s w h).config.texelDownsample),
         ensureDimension ((h : ℚ) / (resizeF s w h).config.texelDownsample)) := by
    rw [resizeF_simSize, resizeF_config]
  rw [resizeF_noop (resizeF s w h) w h h1, ← resizeF_canvas s w h]

theorem resize_spec_witness :
    testState.simSize
        = (ensureDimension ((6 : ℚ) / testState.config.texelDownsample),
           ensureDimension ((6 : ℚ) / testState.config.texelDownsample))
      ∧ resizeF testState 6 6 = { testState with canvasSize := (6, 6) } := by
  have hs : testState.simSize
      = (ensureDimension ((6 : ℚ) / testState.config.texelDownsample),
         ensureDimension ((6 : ℚ) / testState.config.texelDownsample)) := by
    norm_num [testState, testConfig, ensureDimension]
  exact ⟨hs, (resize_spec testState 6 6).2.1 hs⟩

/-- C8: a bloom run over a single-level chain skips the downsample-copy loop
and the upsample-combine loop entirely and returns exactly the
prefiltered-then-blurred level-0 buffer; and the allocated chain stops early
without error — any level that has a successor in the chain has both
dimensions at least 4, so whenever halving a level would drop a dimension
below 2 the chain is truncated there (and the chain never exceeds the
requested level count). -/
theorem bloom_single_level_and_truncation :
    (∀ (cfg : Config) (dye : Grid V3) (lvl : BloomLevel),
        runBloomF cfg dye [lvl]
          = bloomBlurBoth (bloomPrefilterOut cfg.bloomThreshold dye
              lvl.buffer.grid.width lvl.buffer.grid.height))
      ∧ (∀ w h n : ℕ, (bloomDims w h n).length ≤ n)
      ∧ (∀ w h n i : ℕ, i + 1 < (bloomDims w h n).length →
            4 ≤ ((bloomDims w h n).getD i (0, 0)).1
              ∧ 4 ≤ ((bloomDims w h n).getD i (0, 0)).2) :=
  ⟨fun _ _ _ => rfl, fun w h n => bloomDims_length_le n w h,
   fun w h n i hi => bloomDims_inner_ge_four n w h i hi⟩

theorem bloom_single_level_and_truncation_witness :
    0 + 1 < (bloomDims 64 64 3).length
      ∧ (4 ≤ ((bloomDims 64 64 3).getD 0 (0, 0)).1
          ∧ 4 ≤ ((bloomDims 64 64 3).getD 0 (0, 0)).2) :=
  ⟨by simp only [bloomDims_succ_eval, bloomDims_zero_eval]; decide,
   bloom_single_level_and_truncation.2.2 64 64 3 0
     (by simp only [bloomDims_succ_eval, bloomDims_zero_eval]; decide)⟩

/-- C6 amended: each output sample of the vorticity confinement pass equals
the input velocity plus the force obtained by normalising the four-neighbour
gradient of `|curl|` by `(its length + 1e-5)`, rotating it 90 degrees, and
scaling by the SIGNED local curl value and `curlStrength × dt`. -/
theorem vorticity_signed_force (vel : Grid V2) (c : Grid ℝ) (strength dt : ℝ) (w h : ℕ) :
    vorticityOut vel c strength dt w h = vorticitySpecSigned vel c strength dt w h := by
  unfold vorticityOut vorticitySpecSigned
  simp only [Grid.mk.injEq, true_and]
  funext i j
  dsimp only
  apply Prod.ext <;>
    · simp only [Prod.fst_add, Prod.snd_add, Prod.smul_fst, Prod.smul_snd, smul_eq_mul]
      ring

/-- C6 counterexample: on a concrete curl texture whose centre curl is `-1`
with |curl| gradient `(1, 1)`, the shader's output (scaled by the signed
curl) differs from the spec sentence's output (scaled by the curl magnitude)
— the force points in exactly the opposite direction. -/
lemma int_toNat_two : Int.toNat 2 = 2 := rfl

theorem vorticity_magnitude_counterexample :
    (vorticityOut cexVel cexCurl 1 1 3 3).data 1 1
      ≠ (vorticitySpecMagnitude cexVel cexCurl 1 1 3 3).data 1 1 := by
  have hpos : (0 : ℝ) < Real.sqrt 2 + 1e-5 := by positivity
  have hk : (0 : ℝ) < 1 / (Real.sqrt 2 + 1e-5) := by positivity
  have e1 : (vorticityOut cexVel cexCurl 1 1 3 3).data 1 1
      = (-(1 / (Real.sqrt 2 + 1e-5)), 1 / (Real.sqrt 2 + 1e-5)) := by
    norm_num [vorticityOut, Grid.fetch, clampIdx, cexCurl, cexVel]
    ring_nf
    norm_num [int_toNat_two]
  have e2 : (vorticitySpecMagnitude cexVel cexCurl 1 1 3 3).data 1 1
      = (1 / (Real.sqrt 2 + 1e-5), -(1 / (Real.sqrt 2 + 1e-5))) := by
    norm_num [vorticitySpecMagnitude, Grid.fetch, clampIdx, cexCurl, cexVel]
    ring_nf
    norm_num [int_toNat_two]
  intro heq
  rw [e1, e2, Prod.mk.injEq] at heq
  linarith [heq.1]

/-- C9: every output pixel of the presentation pass equals
`pow(1 - exp(-(dye + b) * exposure), 1/gamma)` with alpha 1, where `b` is
`bloomIntensity` times the bloom texture sample when bloom is enabled and `0`
otherwise (stated for states whose bloom chain is non-empty, which holds for
every constructed pipeline since `_setupBloomBuffers` always allocates at
least one level). -/
theorem display_tonemap_spec (s : SimState) (w h i j : ℕ) (hb : s.fbs.bloom ≠ []) :
    (renderF s w h).data i j
      = displaySpecPixel
          (s.fbs.density.read.grid.sampleL (uvCenter w h i j).1 (uvCenter w h i j).2)
          (if s.config.enableBloom then
              s.config.bloomIntensity •
                (runBloomF s.config s.fbs.density.read.grid s.fbs.bloom).sampleL
                  (uvCenter w h i j).1 (uvCenter w h i j).2
            else 0)
          s.config.exposure s.config.gamma := by
  rcases hsb : s.fbs.bloom with _ | ⟨lv, rest⟩
  · exact absurd hsb hb
  · unfold renderF displayOut displaySpecPixel
    rcases hEB : s.config.enableBloom
    · simp [hsb, hEB]
    · simp [hsb, hEB]

theorem display_tonemap_spec_witness :
    testState.fbs.bloom ≠ []
      ∧ (renderF testState 4 4).data 0 0
          = displaySpecPixel
              (testState.fbs.density.read.grid.sampleL (uvCenter 4 4 0 0).1 (uvCenter 4 4 0 0).2)
              (if testState.config.enableBloom then
                  testState.config.bloomIntensity •
                    (runBloomF testState.config testState.fbs.density.read.grid
                        testState.fbs.bloom).sampleL
                      (uvCenter 4 4 0 0).1 (uvCenter 4 4 0 0).2
                else 0)
              testState.config.exposure testState.config.gamma := by
  have hb : testState.fbs.bloom ≠ [] := by
    intro hcontra
    exact List.noConfusion hcontra
  exact ⟨hb, display_tonemap_spec testState 4 4 0 0 hb⟩

end FluidSim
